import Mathlib

/-!
Verification development for the multi-tenant legal-office CRUD backend
(Projects / Tasks / Clients domain services, tenant CRUD helpers, tenant
access middleware, and the client-side list hooks).

The domain services (`ProjectsService`, `TasksService`, `ClientsService`),
the tenant access middleware (`validateTenantAccess`) and the client hooks
(`useClients.loadClients`, `useProjects.loadProjects`) are embedded directly
from the TypeScript source.  The generic tenant CRUD helpers
(`insertInTenantSchema`, `updateInTenantSchema`, `softDeleteInTenantSchema`)
and the tenant directory (`config/database`) are not part of the available
source tree; they are modelled from the spec where indicated.
-/

namespace Crud

/-- JSON values, as stored in a JSONB column and as passed by callers for
JSON-bearing fields (tags, assigned-to lists, contacts, subtasks, address). -/
inductive Json where
  | null : Json
  | bool (b : Bool) : Json
  | num (n : Int) : Json
  | str (s : String) : Json
  | arr (xs : List Json) : Json
  | obj (fs : List (String × Json)) : Json
deriving Repr

/-- Escaping as in `JSON.stringify`, character by character. -/
def escapeChars : List Char → String
  | [] => ""
  | c :: cs =>
      (if c = '\\' then "\\\\" else if c = '"' then "\\\"" else String.singleton c)
        ++ escapeChars cs

/-- Escaping as in `JSON.stringify` for the characters relevant here. -/
def jsonEscape (s : String) : String := escapeChars s.toList

mutual

/-- Serialization as in `JSON.stringify` on a JSON value. -/
def jsonStringify : Json → String
  | Json.null => "null"
  | Json.bool true => "true"
  | Json.bool false => "false"
  | Json.num n => toString n
  | Json.str s => "\"" ++ jsonEscape s ++ "\""
  | Json.arr xs => "[" ++ jsonStringifyList xs ++ "]"
  | Json.obj fs => "\x7b" ++ jsonStringifyFields fs ++ "\x7d"

/-- Comma-separated serialization of array elements. -/
def jsonStringifyList : List Json → String
  | [] => ""
  | [x] => jsonStringify x
  | x :: y :: xs => jsonStringify x ++ "," ++ jsonStringifyList (y :: xs)

/-- Comma-separated serialization of object fields. -/
def jsonStringifyFields : List (String × Json) → String
  | [] => ""
  | [(k, v)] => "\"" ++ jsonEscape k ++ "\":" ++ jsonStringify v
  | (k, v) :: f :: fs =>
      "\"" ++ jsonEscape k ++ "\":" ++ jsonStringify v ++ "," ++ jsonStringifyFields (f :: fs)

end

/-- JavaScript `x || d` on an optional string (`undefined` and `''` are falsy). -/
def jsOrStr (o : Option String) (d : String) : String :=
  match o with
  | none => d
  | some s => if s = "" then d else s

/-- JavaScript `x || d` on an optional number (`undefined` and `0` are falsy). -/
def jsOrNat (o : Option Nat) (d : Nat) : Nat :=
  match o with
  | none => d
  | some 0 => d
  | some n => n

/-- JavaScript `x || d` on an optional integer (`undefined` and `0` are falsy). -/
def jsOrInt (o : Option Int) (d : Int) : Int :=
  match o with
  | none => d
  | some n => if n = 0 then d else n

/-- JavaScript `x || d` on an optional list value (an array is always truthy). -/
def jsOrList {α : Type} (o : Option (List α)) (d : List α) : List α :=
  match o with
  | none => d
  | some xs => xs

/-- JavaScript truthiness of an optional string (`undefined` and `''` are falsy). -/
def jsTruthy (o : Option String) : Bool :=
  match o with
  | none => false
  | some s => !(s == "")

/-- Whether `cs` starts with the pattern `ps`. -/
def charsStartWith : List Char → List Char → Bool
  | [], _ => true
  | _ :: _, [] => false
  | p :: ps, c :: cs => p == c && charsStartWith ps cs

/-- Whether `cs` contains the pattern `ps` as a contiguous run. -/
def charsContain : List Char → List Char → Bool
  | [], ps => charsStartWith ps []
  | c :: rest, ps => charsStartWith ps (c :: rest) || charsContain rest ps

/-- JavaScript `a || b || null` chain on optional strings. -/
def jsOrNullStr (o : Option String) : Option String :=
  match o with
  | none => none
  | some s => if s = "" then none else some s

/-- First truthy of two optional strings, else null. -/
def jsFirstTruthy (a b : Option String) : Option String :=
  match jsOrNullStr a with
  | some s => some s
  | none => jsOrNullStr b

/-- JavaScript `x || null` on an optional number (`0` is falsy). -/
def jsOrNullInt (o : Option Int) : Option Int :=
  match o with
  | none => none
  | some n => if n = 0 then none else some n

/-- JavaScript `String.prototype.trim` (whitespace stripped from both ends). -/
def jsTrim (s : String) : String :=
  String.mk ((((s.toList.dropWhile Char.isWhitespace).reverse).dropWhile
    Char.isWhitespace).reverse)

/-- Lower-case a character list (computable counterpart of `String.toLower`). -/
def lowerChars : List Char → List Char
  | [] => []
  | c :: cs => c.toLower :: lowerChars cs

/-- Case-insensitive substring match: SQL `col ILIKE '%pat%'`. -/
def ilikeContains (col pat : String) : Bool :=
  charsContain (lowerChars col.toList) (lowerChars pat.toList)

/-! ### Projects service (`ProjectsService`, src/unnamed/part_000) -/

/-- A row of the tenant-schema `projects` table.  JSON-bearing columns
(`tags`, `assigned_to`, `contacts`) hold structured values; `created_at`
is modelled as an abstract monotone timestamp used for `ORDER BY`. -/
structure ProjectRow where
  id : String
  title : String
  description : String
  client_id : Option String
  client_name : String
  organization : String
  address : String
  budget : Int
  currency : String
  status : String
  priority : String
  progress : Int
  start_date : String
  due_date : String
  completed_at : Option String
  tags : List String
  assigned_to : List String
  notes : String
  contacts : List Json
  created_by : String
  created_at : Nat
  updated_at : Nat
  is_active : Bool
deriving Repr

/-- The `ProjectFilters` of the source (page, limit, status, priority, search, tags). -/
structure ProjectFilters where
  page : Option Nat := none
  limit : Option Nat := none
  status : Option String := none
  priority : Option String := none
  search : Option String := none
  tags : Option (List String) := none
deriving Repr

/-- An equality filter condition is added only when the filter value is truthy
(JavaScript `if (filters.status) ...`); otherwise the condition holds vacuously. -/
def eqFilterCond (o : Option String) (v : String) : Bool :=
  match o with
  | none => true
  | some s => if s = "" then true else v == s

/-- The `ILIKE '%search%'` disjunction over title, client_name, organization and
description, added only when `filters.search` is truthy. -/
def projectSearchCond (o : Option String) (r : ProjectRow) : Bool :=
  match o with
  | none => true
  | some s =>
      if s = "" then true
      else
        ilikeContains r.title s || ilikeContains r.client_name s ||
          ilikeContains r.organization s || ilikeContains r.description s

/-- The `tags ?| $n` condition (any of the requested tags is an element of the
row's JSONB tags array), added only when a non-empty tag list is supplied. -/
def tagsFilterCond (o : Option (List String)) (rowTags : List String) : Bool :=
  match o with
  | none => true
  | some [] => true
  | some ts => ts.any (fun t => rowTags.contains t)

/-- The conjunctive WHERE clause of `getProjects`: always `is_active = TRUE`,
plus the conditions for each supplied filter. -/
def matchesProjectFilters (f : ProjectFilters) (r : ProjectRow) : Bool :=
  r.is_active && eqFilterCond f.status r.status && eqFilterCond f.priority r.priority &&
    projectSearchCond f.search r && tagsFilterCond f.tags r.tags

/-- Ordering `ORDER BY created_at DESC`. -/
def createdDesc (a b : ProjectRow) : Prop := b.created_at ≤ a.created_at

instance : DecidableRel createdDesc := fun _ _ => Nat.decLe _ _

/-- The pagination descriptor returned by every list operation. -/
structure Pagination where
  page : Nat
  limit : Nat
  total : Nat
  totalPages : Nat
  hasNext : Bool
  hasPrev : Bool
deriving Repr, DecidableEq

/-- Ceiling division `Math.ceil (total / limit)` on naturals (for `limit ≥ 1`). -/
def ceilDiv (total limit : Nat) : Nat := (total + limit - 1) / limit

/-- The rows returned by `getProjects`: filter, order newest-first, then
`LIMIT limit OFFSET (page-1)*limit`.  Defaults: `page = filters.page || 1`,
`limit = filters.limit || 50`. -/
def getProjectsRows (table : List ProjectRow) (f : ProjectFilters) : List ProjectRow :=
  let page := jsOrNat f.page 1
  let limit := jsOrNat f.limit 50
  let offset := (page - 1) * limit
  (((table.filter (matchesProjectFilters f)).insertionSort createdDesc).drop offset).take limit

/-- The pagination descriptor computed by `getProjects` from the companion
COUNT(*) query over the same WHERE clause. -/
def getProjectsPagination (table : List ProjectRow) (f : ProjectFilters) : Pagination :=
  let page := jsOrNat f.page 1
  let limit := jsOrNat f.limit 50
  let total := (table.filter (matchesProjectFilters f)).length
  let totalPages := ceilDiv total limit
  { page := page, limit := limit, total := total, totalPages := totalPages,
    hasNext := decide (page < totalPages), hasPrev := decide (1 < page) }

/-- Lookup `getProjectById`: the first row with the given id and `is_active = TRUE`,
or `none` (`result[0] || null`). -/
def getProjectById (table : List ProjectRow) (pid : String) : Option ProjectRow :=
  (table.filter (fun r => r.id == pid && r.is_active)).head?

/-- Modelled from the spec: `softDeleteInTenantSchema` (src/utils/tenantHelpers
is not in the available sources).  It sets `is_active = false` for the row
matching `id` within the tenant schema and returns the now-inactive row, or a
not-found signal; the row is physically retained. -/
def softDeleteProject (table : List ProjectRow) (pid : String) :
    List ProjectRow × Option ProjectRow :=
  (table.map (fun r => if r.id == pid then { r with is_active := false } else r),
   (table.find? (fun r => r.id == pid)).map (fun r => { r with is_active := false }))

/-- Deletion `deleteProject`: delegates to the soft-delete helper and returns `!!project`. -/
def deleteProject (table : List ProjectRow) (pid : String) : List ProjectRow × Bool :=
  let res := softDeleteProject table pid
  (res.1, res.2.isSome)

/-- The `UpdateProjectData` partial update payload (a field is `none` exactly
when the key is absent/`undefined` in the JSON payload). -/
structure UpdateProjectData where
  title : Option String := none
  description : Option String := none
  clientId : Option String := none
  clientName : Option String := none
  organization : Option String := none
  address : Option String := none
  budget : Option Int := none
  currency : Option String := none
  status : Option String := none
  priority : Option String := none
  progress : Option Int := none
  startDate : Option String := none
  dueDate : Option String := none
  tags : Option (List String) := none
  assignedTo : Option (List String) := none
  notes : Option String := none
  contacts : Option (List Json) := none
deriving Repr

/-- The sparse column map built by `updateProject`: one entry per external
field present in the payload (`if (updateData.x !== undefined) data.col = ...`). -/
structure ProjectUpdateMap where
  title : Option String := none
  description : Option String := none
  client_id : Option String := none
  client_name : Option String := none
  organization : Option String := none
  address : Option String := none
  budget : Option Int := none
  currency : Option String := none
  status : Option String := none
  priority : Option String := none
  progress : Option Int := none
  start_date : Option String := none
  due_date : Option String := none
  tags : Option (List String) := none
  assigned_to : Option (List String) := none
  notes : Option String := none
  contacts : Option (List Json) := none
deriving Repr

/-- The field-by-field construction by `updateProject` of the sparse update map
(external camelCase names to internal column names, values passed through
unchanged, arrays not re-serialized). -/
def buildProjectUpdateMap (u : UpdateProjectData) : ProjectUpdateMap :=
  { title := u.title
    description := u.description
    client_id := u.clientId
    client_name := u.clientName
    organization := u.organization
    address := u.address
    budget := u.budget
    currency := u.currency
    status := u.status
    priority := u.priority
    progress := u.progress
    start_date := u.startDate
    due_date := u.dueDate
    tags := u.tags
    assigned_to := u.assignedTo
    notes := u.notes
    contacts := u.contacts }

/-- Emptiness `Object.keys(data).length === 0` for the sparse update map. -/
def projectMapIsEmpty (m : ProjectUpdateMap) : Bool :=
  m.title.isNone && m.description.isNone && m.client_id.isNone && m.client_name.isNone &&
    m.organization.isNone && m.address.isNone && m.budget.isNone && m.currency.isNone &&
    m.status.isNone && m.priority.isNone && m.progress.isNone && m.start_date.isNone &&
    m.due_date.isNone && m.tags.isNone && m.assigned_to.isNone && m.notes.isNone &&
    m.contacts.isNone

/-- Modelled from the spec: the column-level effect of `updateInTenantSchema`
(src/utils/tenantHelpers is not in the available sources) on one row — only
the columns present in the sparse map change, `updated_at` is always
refreshed, every other column keeps its prior value. -/
def applyProjectUpdateMap (r : ProjectRow) (m : ProjectUpdateMap) (now : Nat) : ProjectRow :=
  { r with
    title := m.title.getD r.title
    description := m.description.getD r.description
    client_id := match m.client_id with | none => r.client_id | some v => some v
    client_name := m.client_name.getD r.client_name
    organization := m.organization.getD r.organization
    address := m.address.getD r.address
    budget := m.budget.getD r.budget
    currency := m.currency.getD r.currency
    status := m.status.getD r.status
    priority := m.priority.getD r.priority
    progress := m.progress.getD r.progress
    start_date := m.start_date.getD r.start_date
    due_date := m.due_date.getD r.due_date
    tags := m.tags.getD r.tags
    assigned_to := m.assigned_to.getD r.assigned_to
    notes := m.notes.getD r.notes
    contacts := m.contacts.getD r.contacts
    updated_at := now }

/-- Modelled from the spec: `updateInTenantSchema` applies the sparse map to
the row matching `id`, returning the new table and the updated row (or a
not-found signal when no row matched). -/
def updateProjectRows (table : List ProjectRow) (pid : String) (m : ProjectUpdateMap)
    (now : Nat) : List ProjectRow × Option ProjectRow :=
  (table.map (fun r => if r.id == pid then applyProjectUpdateMap r m now else r),
   (table.find? (fun r => r.id == pid)).map (fun r => applyProjectUpdateMap r m now))

/-- Update `updateProject`: build the sparse map, reject an empty map
(`No fields to update`), then delegate to the update helper. -/
def updateProject (table : List ProjectRow) (pid : String) (u : UpdateProjectData)
    (now : Nat) : Except String (List ProjectRow × Option ProjectRow) :=
  let m := buildProjectUpdateMap u
  if projectMapIsEmpty m then Except.error "No fields to update"
  else Except.ok (updateProjectRows table pid m now)

/-- The `CreateProjectData` of the source. -/
structure CreateProjectData where
  title : String
  description : Option String := none
  clientId : Option String := none
  clientName : String
  organization : Option String := none
  address : Option String := none
  budget : Option Int := none
  currency : Option String := none
  status : Option String := none
  priority : Option String := none
  progress : Option Int := none
  startDate : String
  dueDate : String
  tags : Option (List String) := none
  assignedTo : Option (List String) := none
  notes : Option String := none
  contacts : Option (List Json) := none
deriving Repr

/-- The column map passed by `createProject` to the insert helper; for
projects every column is populated (optional inputs are defaulted), and the
JSON-bearing columns receive the native arrays, never pre-serialized text. -/
structure ProjectInsertMap where
  title : String
  client_name : String
  status : String
  priority : String
  start_date : String
  due_date : String
  created_by : String
  description : String
  client_id : Option String
  organization : String
  address : String
  budget : Int
  currency : String
  progress : Int
  tags : List String
  assigned_to : List String
  contacts : List Json
  notes : String
deriving Repr

/-- The construction by `createProject` of the insert map (defaults
`status || 'contacted'`, `priority || 'medium'`, `currency || 'BRL'`,
`budget ?? 0`, `progress ?? 0`, `clientId || null`, arrays passed directly). -/
def buildCreateProjectData (d : CreateProjectData) (createdBy : String) : ProjectInsertMap :=
  { title := d.title
    client_name := d.clientName
    status := jsOrStr d.status "contacted"
    priority := jsOrStr d.priority "medium"
    start_date := d.startDate
    due_date := d.dueDate
    created_by := createdBy
    description := jsOrStr d.description ""
    client_id := jsOrNullStr d.clientId
    organization := jsOrStr d.organization ""
    address := jsOrStr d.address ""
    budget := d.budget.getD 0
    currency := jsOrStr d.currency "BRL"
    progress := d.progress.getD 0
    tags := d.tags.getD []
    assigned_to := d.assignedTo.getD []
    contacts := d.contacts.getD []
    notes := jsOrStr d.notes "" }

/-- Modelled from the spec: `insertInTenantSchema` for projects — the fresh
row with a server-generated id and timestamps; structured values are
serialized to JSON text and cast exactly once, so each stored JSON column
equals the caller-passed structure. -/
def insertProjectRow (m : ProjectInsertMap) (genId : String) (now : Nat) : ProjectRow :=
  { id := genId
    title := m.title
    description := m.description
    client_id := m.client_id
    client_name := m.client_name
    organization := m.organization
    address := m.address
    budget := m.budget
    currency := m.currency
    status := m.status
    priority := m.priority
    progress := m.progress
    start_date := m.start_date
    due_date := m.due_date
    completed_at := none
    tags := m.tags
    assigned_to := m.assigned_to
    notes := m.notes
    contacts := m.contacts
    created_by := m.created_by
    created_at := now
    updated_at := now
    is_active := true }

/-- Creation `createProject`: required-field validation (JavaScript falsy checks), then
insert via the helper; returns the new table and the freshly inserted row. -/
def createProject (table : List ProjectRow) (d : CreateProjectData) (createdBy : String)
    (genId : String) (now : Nat) : Except String (List ProjectRow × ProjectRow) :=
  if d.title = "" then Except.error "Titulo e obrigatorio"
  else if d.clientName = "" then Except.error "Cliente e obrigatorio"
  else if d.startDate = "" then Except.error "Data de inicio e obrigatoria"
  else if d.dueDate = "" then Except.error "Data de vencimento e obrigatoria"
  else if createdBy = "" then Except.error "Usuario nao identificado"
  else
    let r := insertProjectRow (buildCreateProjectData d createdBy) genId now
    Except.ok (table ++ [r], r)

/-! ### Tasks service (`TasksService`, src/unnamed/part_001) -/

/-- A row of the tenant-schema `tasks` table, per the `CREATE TABLE` DDL in
`TasksService.ensureTables` (including column defaults). -/
structure TaskRow where
  id : String
  title : String
  description : Option String
  project_id : Option String
  project_title : Option String
  client_id : Option String
  client_name : Option String
  assigned_to : String
  status : String
  priority : String
  start_date : Option String
  end_date : Option String
  estimated_hours : Option Int
  actual_hours : Option Int
  progress : Int
  tags : List String
  notes : Option String
  subtasks : Json
  created_by : String
  created_at : Nat
  updated_at : Nat
  is_active : Bool
deriving Repr

/-- The `status` CHECK constraint tokens of the tasks DDL. -/
def taskStatusTokens : List String :=
  ["not_started", "in_progress", "completed", "on_hold", "cancelled"]

/-- The `priority` CHECK constraint tokens of the tasks DDL. -/
def taskPriorityTokens : List String := ["low", "medium", "high", "urgent"]

/-- The CHECK constraints the tasks DDL imposes on a stored row
(status and priority token sets, progress between 0 and 100). -/
def taskRowChecks (r : TaskRow) : Bool :=
  taskStatusTokens.contains r.status && taskPriorityTokens.contains r.priority &&
    decide (0 ≤ r.progress) && decide (r.progress ≤ 100)

/-- The `CreateTaskData` of the source. -/
structure CreateTaskData where
  title : String
  description : Option String := none
  projectId : Option String := none
  projectTitle : Option String := none
  clientId : Option String := none
  clientName : Option String := none
  assignedTo : String
  status : Option String := none
  priority : Option String := none
  startDate : Option String := none
  endDate : Option String := none
  estimatedHours : Option Int := none
  actualHours : Option Int := none
  progress : Option Int := none
  tags : Option (List String) := none
  notes : Option String := none
  subtasks : Option (List Json) := none
deriving Repr

/-- The column map `createTask` passes to the insert helper.  A `none` field
is a column absent from the map (the DDL default applies).  `subtasks` records
the value actually passed for that column — note the source passes
`JSON.stringify(taskData.subtasks)`, a string, not the array. -/
structure TaskInsertMap where
  title : String
  assigned_to : String
  status : String
  priority : String
  progress : Int
  created_by : String
  description : Option String := none
  project_id : Option String := none
  project_title : Option String := none
  client_id : Option String := none
  client_name : Option String := none
  start_date : Option String := none
  end_date : Option String := none
  estimated_hours : Option Int := none
  actual_hours : Option Int := none
  notes : Option String := none
  tags : Option (List String) := none
  subtasks : Option Json := none
deriving Repr

/-- The construction by `createTask` of the insert map: required fields and
defaults always present; optional fields added only when truthy
(`projectId` additionally skipped when equal to `'none'`, `tags`/`subtasks`
only when non-empty, `estimatedHours`/`actualHours` whenever defined);
`subtasks` is passed through `JSON.stringify`. -/
def buildCreateTaskData (d : CreateTaskData) (createdBy : String) : TaskInsertMap :=
  { title := d.title
    assigned_to := d.assignedTo
    status := jsOrStr d.status "not_started"
    priority := jsOrStr d.priority "medium"
    progress := jsOrInt d.progress 0
    created_by := createdBy
    description := jsOrNullStr d.description
    project_id :=
      match d.projectId with
      | none => none
      | some s => if s ≠ "" && s ≠ "none" then some s else none
    project_title := jsOrNullStr d.projectTitle
    client_id := jsOrNullStr d.clientId
    client_name := jsOrNullStr d.clientName
    start_date := jsOrNullStr d.startDate
    end_date := jsOrNullStr d.endDate
    estimated_hours := d.estimatedHours
    actual_hours := d.actualHours
    notes := jsOrNullStr d.notes
    tags := match d.tags with
      | some (t :: ts) => some (t :: ts)
      | _ => none
    subtasks := match d.subtasks with
      | some (x :: xs) => some (Json.str (jsonStringify (Json.arr (x :: xs))))
      | _ => none }

/-- Modelled from the spec: `insertInTenantSchema` for tasks — the row built
from the column map, with DDL defaults for absent columns (`tags '[]'`,
`subtasks '[]'`, NULL elsewhere) and server-generated id and timestamps. -/
def taskRowFromMap (m : TaskInsertMap) (genId : String) (now : Nat) : TaskRow :=
  { id := genId
    title := m.title
    description := m.description
    project_id := m.project_id
    project_title := m.project_title
    client_id := m.client_id
    client_name := m.client_name
    assigned_to := m.assigned_to
    status := m.status
    priority := m.priority
    start_date := m.start_date
    end_date := m.end_date
    estimated_hours := m.estimated_hours
    actual_hours := m.actual_hours
    progress := m.progress
    tags := m.tags.getD []
    notes := m.notes
    subtasks := m.subtasks.getD (Json.arr [])
    created_by := m.created_by
    created_at := now
    updated_at := now
    is_active := true }

/-- Modelled from the spec plus the tasks DDL: the INSERT either stores the
new row (all CHECK constraints pass) or fails leaving the table unchanged. -/
def runInsertTask (table : List TaskRow) (m : TaskInsertMap) (genId : String) (now : Nat) :
    List TaskRow × Except String TaskRow :=
  if taskRowChecks (taskRowFromMap m genId now) then
    (table ++ [taskRowFromMap m genId now], Except.ok (taskRowFromMap m genId now))
  else (table, Except.error "check constraint violation")

/-- Creation `createTask`: required-field validation (title, assignedTo), then the
insert map and the insert. -/
def createTask (table : List TaskRow) (d : CreateTaskData) (createdBy : String)
    (genId : String) (now : Nat) : List TaskRow × Except String TaskRow :=
  if d.title = "" then (table, Except.error "Titulo e obrigatorio")
  else if d.assignedTo = "" then (table, Except.error "Responsavel e obrigatorio")
  else runInsertTask table (buildCreateTaskData d createdBy) genId now

/-- The `UpdateTaskData` of the source. -/
structure UpdateTaskData where
  title : Option String := none
  description : Option String := none
  projectId : Option String := none
  projectTitle : Option String := none
  clientId : Option String := none
  clientName : Option String := none
  assignedTo : Option String := none
  status : Option String := none
  priority : Option String := none
  startDate : Option String := none
  endDate : Option String := none
  estimatedHours : Option Int := none
  actualHours : Option Int := none
  progress : Option Int := none
  tags : Option (List String) := none
  notes : Option String := none
  subtasks : Option (List Json) := none
deriving Repr

/-- The sparse update map built by `updateTask` (`!== undefined` checks); the
`subtasks` value is again pre-serialized with `JSON.stringify`. -/
structure TaskUpdateMap where
  title : Option String := none
  description : Option String := none
  project_id : Option String := none
  project_title : Option String := none
  client_id : Option String := none
  client_name : Option String := none
  assigned_to : Option String := none
  status : Option String := none
  priority : Option String := none
  start_date : Option String := none
  end_date : Option String := none
  estimated_hours : Option Int := none
  actual_hours : Option Int := none
  progress : Option Int := none
  tags : Option (List String) := none
  notes : Option String := none
  subtasks : Option Json := none
deriving Repr

/-- The field-by-field construction by `updateTask` of the sparse update map. -/
def buildTaskUpdateMap (u : UpdateTaskData) : TaskUpdateMap :=
  { title := u.title
    description := u.description
    project_id := u.projectId
    project_title := u.projectTitle
    client_id := u.clientId
    client_name := u.clientName
    assigned_to := u.assignedTo
    status := u.status
    priority := u.priority
    start_date := u.startDate
    end_date := u.endDate
    estimated_hours := u.estimatedHours
    actual_hours := u.actualHours
    progress := u.progress
    tags := u.tags
    notes := u.notes
    subtasks := u.subtasks.map (fun l => Json.str (jsonStringify (Json.arr l))) }

/-- Emptiness `Object.keys(data).length === 0` for the task update map. -/
def taskMapIsEmpty (m : TaskUpdateMap) : Bool :=
  m.title.isNone && m.description.isNone && m.project_id.isNone && m.project_title.isNone &&
    m.client_id.isNone && m.client_name.isNone && m.assigned_to.isNone && m.status.isNone &&
    m.priority.isNone && m.start_date.isNone && m.end_date.isNone &&
    m.estimated_hours.isNone && m.actual_hours.isNone && m.progress.isNone &&
    m.tags.isNone && m.notes.isNone && m.subtasks.isNone

/-- Modelled from the spec: the column-level effect of the update helper on a
task row (present columns changed, `updated_at` refreshed). -/
def applyTaskUpdateMap (r : TaskRow) (m : TaskUpdateMap) (now : Nat) : TaskRow :=
  { r with
    title := m.title.getD r.title
    description := match m.description with | none => r.description | some v => some v
    project_id := match m.project_id with | none => r.project_id | some v => some v
    project_title := match m.project_title with | none => r.project_title | some v => some v
    client_id := match m.client_id with | none => r.client_id | some v => some v
    client_name := match m.client_name with | none => r.client_name | some v => some v
    assigned_to := m.assigned_to.getD r.assigned_to
    status := m.status.getD r.status
    priority := m.priority.getD r.priority
    start_date := match m.start_date with | none => r.start_date | some v => some v
    end_date := match m.end_date with | none => r.end_date | some v => some v
    estimated_hours := match m.estimated_hours with
      | none => r.estimated_hours | some v => some v
    actual_hours := match m.actual_hours with | none => r.actual_hours | some v => some v
    progress := m.progress.getD r.progress
    tags := m.tags.getD r.tags
    notes := match m.notes with | none => r.notes | some v => some v
    subtasks := m.subtasks.getD r.subtasks
    updated_at := now }

/-- Modelled from the spec plus the tasks DDL: the UPDATE statement applies
the map to every row matching `id`; if any resulting row violates a CHECK
constraint the statement fails and the table is unchanged; otherwise the
updated row (or a not-found signal) is returned. -/
def runUpdateTask (table : List TaskRow) (tid : String) (m : TaskUpdateMap) (now : Nat) :
    List TaskRow × Except String (Option TaskRow) :=
  if (table.map (fun r => if r.id == tid then applyTaskUpdateMap r m now else r)).all
      (fun r => taskRowChecks r || !(r.id == tid)) then
    ((table.map (fun r => if r.id == tid then applyTaskUpdateMap r m now else r)),
     Except.ok ((table.find? (fun r => r.id == tid)).map
       (fun r => applyTaskUpdateMap r m now)))
  else (table, Except.error "check constraint violation")

/-- Update `updateTask`: build the sparse map, reject an empty map, delegate. -/
def updateTask (table : List TaskRow) (tid : String) (u : UpdateTaskData) (now : Nat) :
    List TaskRow × Except String (Option TaskRow) :=
  let m := buildTaskUpdateMap u
  if taskMapIsEmpty m then (table, Except.error "No fields to update")
  else runUpdateTask table tid m now

/-! ### Clients service (`ClientsService`, src/unnamed/part_002) -/

/-- A row of the tenant-schema `clients` table, per the `CREATE TABLE` DDL in
`ClientsService.ensureTables`.  Note the DDL puts no CHECK constraint on
`status` or any other enumerated column. -/
structure ClientRow where
  id : String
  name : String
  email : String
  phone : Option String
  organization : Option String
  address : Json
  budget : Option Int
  currency : String
  level : Option String
  status : String
  tags : List String
  notes : Option String
  description : Option String
  cpf : Option String
  rg : Option String
  pis : Option String
  cei : Option String
  professional_title : Option String
  marital_status : Option String
  birth_date : Option String
  inss_status : Option String
  amount_paid : Option Int
  referred_by : Option String
  registered_by : Option String
  created_by : String
  created_at : Nat
  updated_at : Nat
  is_active : Bool
deriving Repr

/-- The only value-level constraint the clients DDL imposes that matters for
enumerated columns: `currency VARCHAR(3)` bounds the string length; `status`
has no CHECK constraint at all. -/
def clientRowChecks (r : ClientRow) : Bool := decide (r.currency.length ≤ 3)

/-- The `CreateClientData` of the source. -/
structure CreateClientData where
  name : String
  email : String
  mobile : Option String := none
  phone : Option String := none
  organization : Option String := none
  country : Option String := none
  state : Option String := none
  city : Option String := none
  address : Option String := none
  zipCode : Option String := none
  budget : Option Int := none
  currency : Option String := none
  level : Option String := none
  status : Option String := none
  tags : Option (List String) := none
  notes : Option String := none
  description : Option String := none
  cpf : Option String := none
  rg : Option String := none
  pis : Option String := none
  cei : Option String := none
  professionalTitle : Option String := none
  maritalStatus : Option String := none
  birthDate : Option String := none
  inssStatus : Option String := none
  amountPaid : Option Int := none
  referredBy : Option String := none
  registeredBy : Option String := none
deriving Repr

/-- The column map `createClient` passes to the insert helper.  `address`
records the value actually passed for that JSONB column — the source passes
`JSON.stringify({street, city, state, zipCode, country})`, a string. -/
structure ClientInsertMap where
  name : String
  email : String
  phone : Option String
  organization : Option String
  address : Json
  budget : Option Int
  currency : String
  status : String
  tags : List String
  notes : Option String
  cpf : Option String
  rg : Option String
  professional_title : Option String
  marital_status : Option String
  created_by : String
  birth_date : Option String := none
deriving Repr

/-- The construction by `createClient` of the insert map: `phone` is
`mobile || phone || null`, `address` is the pre-serialized JSON text of the
assembled address object, `budget || null`, `currency || 'BRL'`,
`status || 'active'`, `tags || []`, `notes` is `description || notes || null`,
and `birth_date` is added only when `birthDate` is non-empty after trimming. -/
def buildCreateClientData (d : CreateClientData) (createdBy : String) : ClientInsertMap :=
  { name := d.name
    email := d.email
    phone := jsFirstTruthy d.mobile d.phone
    organization := jsOrNullStr d.organization
    address := Json.str (jsonStringify (Json.obj
      [("street", Json.str (jsOrStr d.address "")),
       ("city", Json.str (jsOrStr d.city "")),
       ("state", Json.str (jsOrStr d.state "")),
       ("zipCode", Json.str (jsOrStr d.zipCode "")),
       ("country", Json.str (jsOrStr d.country "BR"))]))
    budget := jsOrNullInt d.budget
    currency := jsOrStr d.currency "BRL"
    status := jsOrStr d.status "active"
    tags := d.tags.getD []
    notes := jsFirstTruthy d.description d.notes
    cpf := jsOrNullStr d.cpf
    rg := jsOrNullStr d.rg
    professional_title := jsOrNullStr d.professionalTitle
    marital_status := jsOrNullStr d.maritalStatus
    created_by := createdBy
    birth_date :=
      match d.birthDate with
      | none => none
      | some s => if s ≠ "" && jsTrim s ≠ "" then some s else none }

/-- Modelled from the spec: `insertInTenantSchema` for clients — the row built
from the column map with DDL defaults for the columns `createClient` never
passes (`level`, `pis`, `cei`, `inss_status`, `amount_paid`, `referred_by`,
`registered_by` stay NULL). -/
def clientRowFromMap (m : ClientInsertMap) (genId : String) (now : Nat) : ClientRow :=
  { id := genId
    name := m.name
    email := m.email
    phone := m.phone
    organization := m.organization
    address := m.address
    budget := m.budget
    currency := m.currency
    level := none
    status := m.status
    tags := m.tags
    notes := m.notes
    description := none
    cpf := m.cpf
    rg := m.rg
    pis := none
    cei := none
    professional_title := m.professional_title
    marital_status := m.marital_status
    birth_date := m.birth_date
    inss_status := none
    amount_paid := none
    referred_by := none
    registered_by := none
    created_by := m.created_by
    created_at := now
    updated_at := now
    is_active := true }

/-- Modelled from the spec plus the clients DDL: the INSERT stores the new
row whenever the DDL constraints hold (there is no service-level validation
in `createClient` and no CHECK constraint on `status`). -/
def runInsertClient (table : List ClientRow) (m : ClientInsertMap) (genId : String)
    (now : Nat) : List ClientRow × Except String ClientRow :=
  if clientRowChecks (clientRowFromMap m genId now) then
    (table ++ [clientRowFromMap m genId now], Except.ok (clientRowFromMap m genId now))
  else (table, Except.error "value too long for type character varying(3)")

/-- Creation `createClient`: builds the map and inserts; the source performs no
required-field or enum validation before delegating to the helper. -/
def createClient (table : List ClientRow) (d : CreateClientData) (createdBy : String)
    (genId : String) (now : Nat) : List ClientRow × Except String ClientRow :=
  runInsertClient table (buildCreateClientData d createdBy) genId now

/-- The `UpdateClientData` of the source. -/
structure UpdateClientData where
  name : Option String := none
  email : Option String := none
  phone : Option String := none
  organization : Option String := none
  address : Option String := none
  budget : Option Int := none
  currency : Option String := none
  status : Option String := none
  tags : Option (List String) := none
  notes : Option String := none
  cpf : Option String := none
  rg : Option String := none
  professionalTitle : Option String := none
  maritalStatus : Option String := none
  birthDate : Option String := none
deriving Repr

/-- The sparse update map built by `updateClient`; the `address` value is
`JSON.stringify(updateData.address)` — the JSON-encoded text of the supplied
value, not the value itself. -/
structure ClientUpdateMap where
  name : Option String := none
  email : Option String := none
  phone : Option String := none
  organization : Option String := none
  address : Option Json := none
  budget : Option Int := none
  currency : Option String := none
  status : Option String := none
  tags : Option (List String) := none
  notes : Option String := none
  cpf : Option String := none
  rg : Option String := none
  professional_title : Option String := none
  marital_status : Option String := none
  birth_date : Option String := none
deriving Repr

/-- The field-by-field construction by `updateClient` of the sparse update map. -/
def buildClientUpdateMap (u : UpdateClientData) : ClientUpdateMap :=
  { name := u.name
    email := u.email
    phone := u.phone
    organization := u.organization
    address := u.address.map (fun a => Json.str (jsonStringify (Json.str a)))
    budget := u.budget
    currency := u.currency
    status := u.status
    tags := u.tags
    notes := u.notes
    cpf := u.cpf
    rg := u.rg
    professional_title := u.professionalTitle
    marital_status := u.maritalStatus
    birth_date := u.birthDate }

/-- Emptiness `Object.keys(data).length === 0` for the client update map. -/
def clientMapIsEmpty (m : ClientUpdateMap) : Bool :=
  m.name.isNone && m.email.isNone && m.phone.isNone && m.organization.isNone &&
    m.address.isNone && m.budget.isNone && m.currency.isNone && m.status.isNone &&
    m.tags.isNone && m.notes.isNone && m.cpf.isNone && m.rg.isNone &&
    m.professional_title.isNone && m.marital_status.isNone && m.birth_date.isNone

/-- Modelled from the spec: the column-level effect of the update helper on a
client row. -/
def applyClientUpdateMap (r : ClientRow) (m : ClientUpdateMap) (now : Nat) : ClientRow :=
  { r with
    name := m.name.getD r.name
    email := m.email.getD r.email
    phone := match m.phone with | none => r.phone | some v => some v
    organization := match m.organization with | none => r.organization | some v => some v
    address := m.address.getD r.address
    budget := match m.budget with | none => r.budget | some v => some v
    currency := m.currency.getD r.currency
    status := m.status.getD r.status
    tags := m.tags.getD r.tags
    notes := match m.notes with | none => r.notes | some v => some v
    cpf := match m.cpf with | none => r.cpf | some v => some v
    rg := match m.rg with | none => r.rg | some v => some v
    professional_title := match m.professional_title with
      | none => r.professional_title | some v => some v
    marital_status := match m.marital_status with
      | none => r.marital_status | some v => some v
    birth_date := match m.birth_date with | none => r.birth_date | some v => some v
    updated_at := now }

/-- Modelled from the spec plus the clients DDL: the UPDATE statement. -/
def runUpdateClient (table : List ClientRow) (cid : String) (m : ClientUpdateMap)
    (now : Nat) : List ClientRow × Except String (Option ClientRow) :=
  if (table.map (fun r => if r.id == cid then applyClientUpdateMap r m now else r)).all
      (fun r => clientRowChecks r || !(r.id == cid)) then
    ((table.map (fun r => if r.id == cid then applyClientUpdateMap r m now else r)),
     Except.ok ((table.find? (fun r => r.id == cid)).map
       (fun r => applyClientUpdateMap r m now)))
  else (table, Except.error "value too long for type character varying(3)")

/-- Update `updateClient`: build the sparse map, reject an empty map, delegate. -/
def updateClient (table : List ClientRow) (cid : String) (u : UpdateClientData) (now : Nat) :
    List ClientRow × Except String (Option ClientRow) :=
  let m := buildClientUpdateMap u
  if clientMapIsEmpty m then (table, Except.error "No fields to update")
  else runUpdateClient table cid m now

/-! ### Ensure-schema step (`ensureTables` of the services)

Statements are modelled as opaque strings executed against an environment
`env : String → Except Unit Unit` (success or a thrown driver error); the
schema placeholder is written `<schema>` and SQL quoting is elided, since the
theorems quantify over every environment. -/

/-- The seven `ADD COLUMN IF NOT EXISTS` statements of
`ProjectsService.ensureTables`. -/
def projectsAlterStatements : List String :=
  ["ALTER TABLE <schema>.projects ADD COLUMN IF NOT EXISTS organization VARCHAR(255)",
   "ALTER TABLE <schema>.projects ADD COLUMN IF NOT EXISTS address VARCHAR(255)",
   "ALTER TABLE <schema>.projects ADD COLUMN IF NOT EXISTS currency VARCHAR(3) DEFAULT BRL",
   "ALTER TABLE <schema>.projects ADD COLUMN IF NOT EXISTS due_date TIMESTAMP WITH TIME ZONE",
   "ALTER TABLE <schema>.projects ADD COLUMN IF NOT EXISTS completed_at TIMESTAMP WITH TIME ZONE",
   "ALTER TABLE <schema>.projects ADD COLUMN IF NOT EXISTS assigned_to JSONB DEFAULT []",
   "ALTER TABLE <schema>.projects ADD COLUMN IF NOT EXISTS contacts JSONB DEFAULT []"]

/-- The five backfill/constraint migration statements of
`ProjectsService.ensureTables`, each in its own try/catch. -/
def projectsMigrationStatements : List String :=
  ["UPDATE <schema>.projects SET due_date = end_date WHERE due_date IS NULL AND end_date IS NOT NULL",
   "UPDATE <schema>.projects SET start_date = created_at WHERE start_date IS NULL",
   "UPDATE <schema>.projects SET due_date = created_at + INTERVAL 30 days WHERE due_date IS NULL",
   "ALTER TABLE <schema>.projects ALTER COLUMN start_date SET NOT NULL",
   "ALTER TABLE <schema>.projects ALTER COLUMN due_date SET NOT NULL"]

/-- One statement executed inside `try { ... } catch (e) { console.log(...) }`:
the error is logged and swallowed. -/
def caughtExec (env : String → Except Unit Unit) (s : String) : Except Unit Unit :=
  match env s with
  | Except.ok _ => Except.ok ()
  | Except.error _ => Except.ok ()

/-- Sequential `await` of a list of statements, each wrapped in try/catch. -/
def runCaughtAll (env : String → Except Unit Unit) : List String → Except Unit Unit
  | [] => Except.ok ()
  | s :: rest =>
      match caughtExec env s with
      | Except.ok _ => runCaughtAll env rest
      | Except.error e => Except.error e

/-- Sequential `await` of a list of statements with no try/catch: the first
thrown error propagates. -/
def runAll (env : String → Except Unit Unit) : List String → Except Unit Unit
  | [] => Except.ok ()
  | s :: rest =>
      match env s with
      | Except.ok _ => runAll env rest
      | Except.error e => Except.error e

/-- The `ProjectsService.ensureTables` step: check table existence (early return when
the table is absent), then run every migration statement inside its own
try/catch. -/
def projectsEnsureTables (env : String → Except Unit Unit)
    (tableExists : Except Unit Bool) : Except Unit Unit :=
  match tableExists with
  | Except.error e => Except.error e
  | Except.ok false => Except.ok ()
  | Except.ok true =>
      match runCaughtAll env projectsAlterStatements with
      | Except.error e => Except.error e
      | Except.ok _ => runCaughtAll env projectsMigrationStatements

/-- The `CREATE TABLE IF NOT EXISTS <schema>.tasks (...)` statement of
`TasksService.ensureTables` (executed with no try/catch). -/
def tasksCreateTableStatement : String :=
  "CREATE TABLE IF NOT EXISTS <schema>.tasks (id UUID PRIMARY KEY DEFAULT gen_random_uuid(), ...)"

/-- The seven `CREATE INDEX IF NOT EXISTS` statements of
`TasksService.ensureTables` (each executed with no try/catch). -/
def tasksIndexStatements : List String :=
  ["CREATE INDEX IF NOT EXISTS idx_tasks_assigned_to ON <schema>.tasks(assigned_to)",
   "CREATE INDEX IF NOT EXISTS idx_tasks_status ON <schema>.tasks(status)",
   "CREATE INDEX IF NOT EXISTS idx_tasks_priority ON <schema>.tasks(priority)",
   "CREATE INDEX IF NOT EXISTS idx_tasks_project_id ON <schema>.tasks(project_id)",
   "CREATE INDEX IF NOT EXISTS idx_tasks_client_id ON <schema>.tasks(client_id)",
   "CREATE INDEX IF NOT EXISTS idx_tasks_active ON <schema>.tasks(is_active)",
   "CREATE INDEX IF NOT EXISTS idx_tasks_created_by ON <schema>.tasks(created_by)"]

/-- The `TasksService.ensureTables` step: the CREATE TABLE and the index statements
are awaited directly, with no try/catch anywhere. -/
def tasksEnsureTables (env : String → Except Unit Unit) : Except Unit Unit :=
  match env tasksCreateTableStatement with
  | Except.error e => Except.error e
  | Except.ok _ => runAll env tasksIndexStatements

/-! ### Tenant access middleware (`validateTenantAccess`, src/unnamed/part_004) -/

/-- The authenticated user placed on the request by the auth layer. -/
structure AuthUser where
  id : String
  userId : String
  role : String
  accountType : String
  tenantId : Option String
deriving Repr, DecidableEq

/-- A tenant directory entry. -/
structure Tenant where
  id : String
  name : String
  isActive : Bool
deriving Repr, DecidableEq

/-- The tenant database handle attached to the request: the tenant id it was
constructed for and, when the middleware constructs it directly
(`new TenantDatabase(...)`), the explicit schema name; for the regular path
the schema is resolved inside `config/database` (not in the available
sources) and is left abstract. -/
structure TenantDBRef where
  tenantId : String
  schemaName : Option String
deriving Repr, DecidableEq

/-- Outcome of the middleware for one request: either a response is sent
(with the given HTTP status) and `next()` is never called — so no Domain
Service operation runs — or `next()` is called with the attached tenant
info and tenant database handle. -/
inductive MwOutcome where
  | respond (status : Nat)
  | proceed (tenant : Option Tenant) (tenantDB : Option TenantDBRef)
deriving Repr, DecidableEq

/-- The middleware `validateTenantAccess`: 401 without a user; admin/superadmin bypass with
no tenant resolution; the fixed demo user bypasses with a hardcoded tenant
and schema; otherwise a falsy `tenantId` is 403, a missing tenant is 403, an
inactive tenant is 403, a directory error is 503, and a valid active tenant
proceeds with tenant info and tenant database attached. -/
def validateTenantAccess (user? : Option AuthUser)
    (getTenantById : String → Except Unit (Option Tenant)) : MwOutcome :=
  match user? with
  | none => MwOutcome.respond 401
  | some u =>
    if u.role == "admin" || u.role == "superadmin" then
      MwOutcome.proceed none none
    else if u.id == "demo-user-id" then
      MwOutcome.proceed
        (some { id := "demo-tenant-id", name := "Demo Tenant", isActive := true })
        (some { tenantId := "demo-tenant-id", schemaName := some "tenant_demotenantid" })
    else
      match u.tenantId with
      | none => MwOutcome.respond 403
      | some tid =>
        if tid == "" then MwOutcome.respond 403
        else match getTenantById tid with
        | Except.error _ => MwOutcome.respond 503
        | Except.ok none => MwOutcome.respond 403
        | Except.ok (some t) =>
          if !t.isActive then MwOutcome.respond 403
          else MwOutcome.proceed (some t) (some { tenantId := tid, schemaName := none })

/-! ### Client-side list hooks (src/client/hooks/useClients.ts, useProjects.ts) -/

/-- The observable result of `useClients.loadClients`: the displayed list and
the error state after the call.  `resp` is the API call outcome (`Except.error`
models a thrown/failed request).  The source substitutes the mock data set
both when the response has no rows and when the call throws, and explicitly
clears the error state (`setError(null)`) in both paths. -/
def loadClientsView {α : Type} (resp : Except Unit (List α)) (mock : List α) :
    List α × Option String :=
  match resp with
  | Except.error _ => (mock, none)
  | Except.ok rows => if rows.isEmpty then (mock, none) else (rows, none)

/-- The observable result of `useProjects.loadProjects` (same substitution
logic as `useClients`; the companion stats recomputation from the mock list is
not part of the displayed-list/error state modelled here). -/
def loadProjectsView {α : Type} (resp : Except Unit (List α)) (mock : List α) :
    List α × Option String :=
  match resp with
  | Except.error _ => (mock, none)
  | Except.ok rows => if rows.isEmpty then (mock, none) else (rows, none)

/-! ### Concrete instances used by witnesses and counterexamples -/

/-- An environment in which every statement fails. -/
def allFailEnv : String → Except Unit Unit := fun _ => Except.error ()

/-- An environment in which every statement succeeds. -/
def allOkEnv : String → Except Unit Unit := fun _ => Except.ok ()

/-- An admin user whose `tenantId` points at an inactive tenant. -/
def adminWithInactiveTenant : AuthUser :=
  { id := "u1", userId := "u1", role := "admin", accountType := "simples",
    tenantId := some "t1" }

/-- A regular (non-admin, non-demo) user bound to tenant `t1`. -/
def regularUserT1 : AuthUser :=
  { id := "u2", userId := "u2", role := "user", accountType := "composta",
    tenantId := some "t1" }

/-- A tenant directory in which `t1` exists but is inactive. -/
def inactiveTenantDirectory : String → Except Unit (Option Tenant) :=
  fun tid =>
    if tid == "t1" then Except.ok (some { id := "t1", name := "T", isActive := false })
    else Except.ok none

/-- A concrete active project row used in witnesses. -/
def demoProjectRow : ProjectRow :=
  { id := "p1", title := "Processo Acme", description := "", client_id := none,
    client_name := "Acme", organization := "", address := "", budget := 100,
    currency := "BRL", status := "contacted", priority := "medium", progress := 0,
    start_date := "2024-01-01", due_date := "2024-02-01", completed_at := none,
    tags := ["a", "b"], assigned_to := [], notes := "", contacts := [],
    created_by := "u1", created_at := 1, updated_at := 1, is_active := true }

/-- A table of 120 active project rows (pairwise distinct creation times). -/
def demoProjectTable : List ProjectRow :=
  (List.range 120).map (fun i => { demoProjectRow with created_at := i })

/-- A concrete active client row used in witnesses. -/
def demoClientRow : ClientRow :=
  { id := "c1", name := "Nina", email := "nina@example.com", phone := none,
    organization := none, address := Json.obj [], budget := none, currency := "BRL",
    level := none, status := "active", tags := [], notes := none, description := none,
    cpf := none, rg := none, pis := none, cei := none, professional_title := none,
    marital_status := none, birth_date := none, inss_status := none,
    amount_paid := none, referred_by := none, registered_by := none,
    created_by := "u1", created_at := 1, updated_at := 1, is_active := true }

/-- A create-client payload with a status token outside the recognized set. -/
def bogusClientData : CreateClientData :=
  { name := "Nina", email := "nina@example.com", status := some "bogus" }

/-- The recognized status tokens of the client entity (from the source's
`Client` type: `'active' | 'inactive' | 'pending'`). -/
def clientStatusTokens : List String := ["active", "inactive", "pending"]

/-- A create-task payload carrying a non-empty subtasks array. -/
def subtaskTaskData : CreateTaskData :=
  { title := "T", assignedTo := "u", subtasks := some [Json.str "a"] }

/-- A create-project payload carrying `tags = ["a","b"]`. -/
def taggedProjectData : CreateProjectData :=
  { title := "T", clientName := "Acme", startDate := "2024-01-01",
    dueDate := "2024-02-01", tags := some ["a", "b"] }

/-- A create-task payload with a status token outside the recognized set. -/
def invalidStatusTaskData : CreateTaskData :=
  { title := "T", assignedTo := "u", status := some "weird" }

/-- A create-task payload with a truthy description (for the C10 witness). -/
def describedTaskData : CreateTaskData :=
  { title := "T", assignedTo := "u", description := some "hello" }

/-- A create-client payload with a non-empty birth date (for the C10 witness). -/
def bornClientData : CreateClientData :=
  { name := "N", email := "e", birthDate := some "1990-01-01" }

/-! ### Theorems -/

/-- Helper: a try/catch-wrapped statement sequence never propagates an error. -/
theorem runCaughtAll_ok (env : String → Except Unit Unit) :
    ∀ l : List String, runCaughtAll env l = Except.ok ()
  | [] => rfl
  | s :: rest => by
      unfold runCaughtAll caughtExec
      cases env s <;> exact runCaughtAll_ok env rest

/-- C2 (counterexample): `TasksService.ensureTables` issues its
CREATE TABLE statement with no try/catch, so in an environment where that
schema-migration statement errors the error propagates to the caller instead
of being caught and logged. -/
theorem C2_counterexample_tasks_propagates :
    tasksEnsureTables allFailEnv = Except.error () := rfl

/-- C2 (amended): `ProjectsService.ensureTables` wraps every individual
migration statement in its own try/catch, so whenever the initial existence
check itself succeeds it returns without propagating any migration-statement
failure, whatever the environment; `TasksService.ensureTables`, by contrast,
runs its CREATE TABLE statement unguarded and propagates its failure. -/
theorem C2_ensure_tables_error_tolerance :
    (∀ (env : String → Except Unit Unit) (b : Bool),
      projectsEnsureTables env (Except.ok b) = Except.ok ()) ∧
    (∀ env : String → Except Unit Unit,
      env tasksCreateTableStatement = Except.error () →
        tasksEnsureTables env = Except.error ()) := by
  constructor
  · intro env b
    cases b
    · rfl
    · show (match runCaughtAll env projectsAlterStatements with
        | Except.error e => Except.error e
        | Except.ok _ => runCaughtAll env projectsMigrationStatements) = Except.ok ()
      rw [runCaughtAll_ok, runCaughtAll_ok]
  · intro env h
    show (match env tasksCreateTableStatement with
      | Except.error e => Except.error e
      | Except.ok _ => runAll env tasksIndexStatements) = Except.error ()
    rw [h]

/-- C2 (witness). -/
theorem C2_ensure_tables_error_tolerance_witness :
    projectsEnsureTables allFailEnv (Except.ok true) = Except.ok () ∧
    tasksEnsureTables allFailEnv = Except.error () :=
  ⟨C2_ensure_tables_error_tolerance.1 allFailEnv true,
   C2_ensure_tables_error_tolerance.2 allFailEnv rfl⟩

/-- C8: in the list hooks, a failed API call and a zero-row response both
substitute the mock data set as the displayed list with the error state
cleared (`none`), producing identical observable states; a populated response
is displayed as-is, also with a clear error state — so failure and emptiness
are indistinguishable from a populated result in the error state. -/
theorem C8_hooks_substitute_mock_on_empty_or_error (α : Type) (mock : List α) :
    loadClientsView (Except.error ()) mock = (mock, none) ∧
    loadClientsView (Except.ok ([] : List α)) mock = (mock, none) ∧
    loadClientsView (Except.error ()) mock = loadClientsView (Except.ok []) mock ∧
    (∀ rows : List α, rows ≠ [] → loadClientsView (Except.ok rows) mock = (rows, none)) ∧
    loadProjectsView (Except.error ()) mock = (mock, none) ∧
    loadProjectsView (Except.ok ([] : List α)) mock = (mock, none) ∧
    loadProjectsView (Except.error ()) mock = loadProjectsView (Except.ok []) mock ∧
    (∀ rows : List α, rows ≠ [] → loadProjectsView (Except.ok rows) mock = (rows, none)) := by
  refine ⟨rfl, rfl, rfl, ?_, rfl, rfl, rfl, ?_⟩ <;>
    · intro rows h
      cases rows with
      | nil => exact absurd rfl h
      | cons x xs => rfl

/-- C8 (witness). -/
theorem C8_hooks_substitute_mock_on_empty_or_error_witness :
    loadClientsView (Except.error ()) [7] = ([7], none) ∧
    loadClientsView (Except.ok [5]) [7] = ([5], none) :=
  ⟨(C8_hooks_substitute_mock_on_empty_or_error Nat [7]).1,
   (C8_hooks_substitute_mock_on_empty_or_error Nat [7]).2.2.2.1 [5] (by decide)⟩

/-- C9: `validateTenantAccess` lets every user with role `admin` or
`superadmin` proceed with no tenant attached, no tenant database attached,
and no directory lookup (the outcome is the same for every directory); a
non-admin user with id `demo-user-id` proceeds with the hardcoded tenant
`demo-tenant-id` and schema `tenant_demotenantid`, again independently of the
directory. -/
theorem C9_admin_and_demo_bypass :
    (∀ (u : AuthUser) (dir dir2 : String → Except Unit (Option Tenant)),
      u.role = "admin" ∨ u.role = "superadmin" →
        validateTenantAccess (some u) dir = MwOutcome.proceed none none ∧
        validateTenantAccess (some u) dir = validateTenantAccess (some u) dir2) ∧
    (∀ (u : AuthUser) (dir dir2 : String → Except Unit (Option Tenant)),
      u.role ≠ "admin" → u.role ≠ "superadmin" → u.id = "demo-user-id" →
        validateTenantAccess (some u) dir =
          MwOutcome.proceed
            (some { id := "demo-tenant-id", name := "Demo Tenant", isActive := true })
            (some { tenantId := "demo-tenant-id",
                    schemaName := some "tenant_demotenantid" }) ∧
        validateTenantAccess (some u) dir = validateTenantAccess (some u) dir2) := by
  constructor
  · intro u dir dir2 h
    rcases h with h | h <;> simp [validateTenantAccess, h]
  · intro u dir dir2 h1 h2 h3
    simp [validateTenantAccess, h1, h2, h3]

/-- C9 (witness). -/
theorem C9_admin_and_demo_bypass_witness :
    validateTenantAccess (some adminWithInactiveTenant) inactiveTenantDirectory =
      MwOutcome.proceed none none ∧
    validateTenantAccess
        (some { id := "demo-user-id", userId := "demo-user-id", role := "user",
                accountType := "simples", tenantId := none })
        inactiveTenantDirectory =
      MwOutcome.proceed
        (some { id := "demo-tenant-id", name := "Demo Tenant", isActive := true })
        (some { tenantId := "demo-tenant-id", schemaName := some "tenant_demotenantid" }) :=
  ⟨(C9_admin_and_demo_bypass.1 adminWithInactiveTenant inactiveTenantDirectory
      inactiveTenantDirectory (Or.inl rfl)).1,
   (C9_admin_and_demo_bypass.2
      { id := "demo-user-id", userId := "demo-user-id", role := "user",
        accountType := "simples", tenantId := none }
      inactiveTenantDirectory inactiveTenantDirectory
      (by decide) (by decide) rfl).1⟩

/-- C7 (counterexample): an `admin` user whose tenant id resolves to an
inactive tenant in the directory is not answered with 403 — the middleware
bypasses tenant validation entirely and calls `next()`. -/
theorem C7_counterexample_admin_bypasses_inactive_tenant :
    adminWithInactiveTenant.tenantId = some "t1" ∧
    inactiveTenantDirectory "t1" =
      Except.ok (some { id := "t1", name := "T", isActive := false }) ∧
    validateTenantAccess (some adminWithInactiveTenant) inactiveTenantDirectory =
      MwOutcome.proceed none none ∧
    validateTenantAccess (some adminWithInactiveTenant) inactiveTenantDirectory ≠
      MwOutcome.respond 403 :=
  ⟨rfl, rfl, rfl, by decide⟩

/-- C7 (amended): for every request whose authenticated user is not an
admin/superadmin and not the demo user, if the user's tenant id resolves to
no tenant, or to a tenant with `isActive = false`, the middleware responds
403 — an outcome in which `next()` is never called, so no Domain Service
operation runs for the request.  (Admin/superadmin and the demo user bypass
tenant validation; see the counterexample.) -/
theorem C7_inactive_or_missing_tenant_gets_403 (u : AuthUser)
    (dir : String → Except Unit (Option Tenant)) (tid : String)
    (hadmin : u.role ≠ "admin") (hsuper : u.role ≠ "superadmin")
    (hdemo : u.id ≠ "demo-user-id") (htid : u.tenantId = some tid) :
    (dir tid = Except.ok none →
      validateTenantAccess (some u) dir = MwOutcome.respond 403) ∧
    (∀ t : Tenant, dir tid = Except.ok (some t) → t.isActive = false →
      validateTenantAccess (some u) dir = MwOutcome.respond 403) := by
  constructor
  · intro hdir
    by_cases he : tid = ""
    · simp [validateTenantAccess, hadmin, hsuper, hdemo, htid, he]
    · simp [validateTenantAccess, hadmin, hsuper, hdemo, htid, he, hdir]
  · intro t hdir hact
    by_cases he : tid = ""
    · simp [validateTenantAccess, hadmin, hsuper, hdemo, htid, he]
    · simp [validateTenantAccess, hadmin, hsuper, hdemo, htid, he, hdir, hact]

/-- C7 (witness). -/
theorem C7_inactive_or_missing_tenant_gets_403_witness :
    validateTenantAccess (some regularUserT1) inactiveTenantDirectory =
      MwOutcome.respond 403 ∧
    validateTenantAccess (some { regularUserT1 with tenantId := some "t9" })
      inactiveTenantDirectory = MwOutcome.respond 403 :=
  ⟨(C7_inactive_or_missing_tenant_gets_403 regularUserT1 inactiveTenantDirectory "t1"
      (by decide) (by decide) (by decide) rfl).2
      { id := "t1", name := "T", isActive := false } rfl rfl,
   (C7_inactive_or_missing_tenant_gets_403 { regularUserT1 with tenantId := some "t9" }
      inactiveTenantDirectory "t9" (by decide) (by decide) (by decide) rfl).1 rfl⟩

/-- Helper: after a soft delete, every row of the new table carrying the
deleted id is inactive. -/
theorem softDeleteProject_inactive (table : List ProjectRow) (pid : String)
    (r : ProjectRow) (hr : r ∈ (softDeleteProject table pid).1) (hid : r.id = pid) :
    r.is_active = false := by
  unfold softDeleteProject at hr
  simp only [List.mem_map] at hr
  obtain ⟨r0, _, hmap⟩ := hr
  by_cases h0 : r0.id == pid
  · rw [if_pos h0] at hmap
    exact hmap ▸ rfl
  · rw [if_neg h0] at hmap
    subst hmap
    exact absurd (by simp [hid]) h0

/-- C4: if `softDelete(id)` succeeds (returns a row), then `getById(id)`
on the resulting table returns the not-found signal `none`; the rows returned
by `getProjects` never include that id for any filters (including any page
and limit); the table keeps the same number of rows; and a row with the
deleted id remains physically present with `is_active = false`. -/
theorem C4_soft_delete_hides_row (table : List ProjectRow) (pid : String)
    (h : (softDeleteProject table pid).2.isSome = true) :
    getProjectById (softDeleteProject table pid).1 pid = none ∧
    (∀ (f : ProjectFilters) (r : ProjectRow),
        r ∈ getProjectsRows (softDeleteProject table pid).1 f → r.id ≠ pid) ∧
    (softDeleteProject table pid).1.length = table.length ∧
    (∃ r ∈ (softDeleteProject table pid).1, r.id = pid ∧ r.is_active = false) := by
  refine ⟨?_, ?_, ?_, ?_⟩
  · unfold getProjectById
    have hnil : ((softDeleteProject table pid).1.filter
        (fun r => r.id == pid && r.is_active)) = [] := by
      refine List.filter_eq_nil_iff.mpr ?_
      intro r hr hpred
      simp only [Bool.and_eq_true, beq_iff_eq] at hpred
      have := softDeleteProject_inactive table pid r hr hpred.1
      rw [this] at hpred
      exact Bool.noConfusion hpred.2
    rw [hnil]
    rfl
  · intro f r hr hid
    unfold getProjectsRows at hr
    have hr2 := List.take_subset _ _ hr
    have hr3 := List.drop_subset _ _ hr2
    rw [List.mem_insertionSort] at hr3
    rw [List.mem_filter] at hr3
    obtain ⟨hmem, hmatch⟩ := hr3
    have hinact := softDeleteProject_inactive table pid r hmem hid
    unfold matchesProjectFilters at hmatch
    rw [hinact] at hmatch
    simp at hmatch
  · exact List.length_map _ _
  · unfold softDeleteProject at h ⊢
    simp only [Option.isSome_map'] at h
    rw [Option.isSome_iff_exists] at h
    obtain ⟨r0, hfind⟩ := h
    have hp := List.find?_some hfind
    have hmem := List.mem_of_find?_eq_some hfind
    refine ⟨{ r0 with is_active := false }, ?_, ?_, rfl⟩
    · simp only [List.mem_map]
      exact ⟨r0, hmem, by rw [if_pos hp]⟩
    · simpa using (beq_iff_eq.mp hp)

/-- C4 (witness). -/
theorem C4_soft_delete_hides_row_witness :
    getProjectById (softDeleteProject [demoProjectRow] "p1").1 "p1" = none ∧
    (softDeleteProject [demoProjectRow] "p1").1.length = 1 :=
  ⟨(C4_soft_delete_hides_row [demoProjectRow] "p1" rfl).1,
   (C4_soft_delete_hides_row [demoProjectRow] "p1" rfl).2.2.1⟩

/-- Helper: the page/limit values are always at least 1. -/
theorem jsOrNat_pos (o : Option Nat) (d : Nat) (hd : 0 < d) : 0 < jsOrNat o d := by
  match o with
  | none => exact hd
  | some 0 => exact hd
  | some (n + 1) => exact Nat.succ_pos n

/-- Helper: `ceilDiv N L` is the ceiling of `N / L`: it is the least number
of pages covering all `N` rows (`N ≤ L * ceilDiv N L < N + L`). -/
theorem ceilDiv_bounds (N L : Nat) (hL : 0 < L) :
    N ≤ L * ceilDiv N L ∧ L * ceilDiv N L < N + L := by
  have hdm := Nat.div_add_mod (N + L - 1) L
  have hlt : (N + L - 1) % L < L := Nat.mod_lt _ hL
  unfold ceilDiv
  generalize hr : (N + L - 1) % L = r at *
  generalize hq : L * ((N + L - 1) / L) = x at *
  omega

set_option maxRecDepth 40000 in
/-- C6: for every table and filters, the pagination descriptor of the
list operation satisfies `page = filters.page || 1`, `limit = filters.limit
|| 50`, `total = N` (the number of active matching rows), `totalPages =
ceil(N / limit)` (characterized by `N ≤ limit * totalPages < N + limit`),
`hasNext = (page < totalPages)`, `hasPrev = (page > 1)`, and the returned
page holds `min(limit, N - (page-1)*limit)` rows (natural subtraction);
in particular, over 120 active rows with limit 50, page 1 returns 50 rows
with `hasNext`, no `hasPrev` and 3 total pages, and page 3 returns 20 rows
with no `hasNext`. -/
theorem C6_list_pagination (table : List ProjectRow) (f : ProjectFilters) :
    (getProjectsPagination table f).page = jsOrNat f.page 1 ∧
    (getProjectsPagination table f).limit = jsOrNat f.limit 50 ∧
    (getProjectsPagination table f).total =
      (table.filter (matchesProjectFilters f)).length ∧
    (table.filter (matchesProjectFilters f)).length ≤
      jsOrNat f.limit 50 * (getProjectsPagination table f).totalPages ∧
    jsOrNat f.limit 50 * (getProjectsPagination table f).totalPages <
      (table.filter (matchesProjectFilters f)).length + jsOrNat f.limit 50 ∧
    (getProjectsPagination table f).hasNext =
      decide (jsOrNat f.page 1 < (getProjectsPagination table f).totalPages) ∧
    (getProjectsPagination table f).hasPrev = decide (1 < jsOrNat f.page 1) ∧
    (getProjectsRows table f).length =
      min (jsOrNat f.limit 50)
        ((table.filter (matchesProjectFilters f)).length -
          (jsOrNat f.page 1 - 1) * jsOrNat f.limit 50) ∧
    getProjectsPagination demoProjectTable { page := some 1, limit := some 50 } =
      { page := 1, limit := 50, total := 120, totalPages := 3,
        hasNext := true, hasPrev := false } ∧
    (getProjectsRows demoProjectTable { page := some 1, limit := some 50 }).length = 50 ∧
    getProjectsPagination demoProjectTable { page := some 3, limit := some 50 } =
      { page := 3, limit := 50, total := 120, totalPages := 3,
        hasNext := false, hasPrev := true } ∧
    (getProjectsRows demoProjectTable { page := some 3, limit := some 50 }).length = 20 := by
  have hL : 0 < jsOrNat f.limit 50 := jsOrNat_pos _ _ (by decide)
  have hceil := ceilDiv_bounds (table.filter (matchesProjectFilters f)).length
    (jsOrNat f.limit 50) hL
  refine ⟨rfl, rfl, rfl, hceil.1, hceil.2, rfl, rfl, ?_, by decide, by decide,
    by decide, by decide⟩
  unfold getProjectsRows
  rw [List.length_take, List.length_drop, List.length_insertionSort]

/-- C5 (counterexample): `ClientsService.updateClient` passes
`JSON.stringify(updateData.address)` to the update helper, so an update whose
payload explicitly supplies `address = "Rua A"` stores the JSON-encoded text
of the supplied value (the string `"\"Rua A\""`), not the value exactly as
given. -/
theorem C5_counterexample_client_address_reserialized :
    ((updateClient [demoClientRow] "c1" { address := some "Rua A" } 7).1.head?.map
        (fun r => r.address)) = some (Json.str (jsonStringify (Json.str "Rua A"))) ∧
    jsonStringify (Json.str "Rua A") = "\"Rua A\"" ∧
    Json.str (jsonStringify (Json.str "Rua A")) ≠ Json.str "Rua A" := by
  have h2 : jsonStringify (Json.str "Rua A") = "\"Rua A\"" := by decide
  refine ⟨rfl, h2, ?_⟩
  rw [h2]
  intro h
  injection h with h3
  exact absurd h3 (by decide)

/-- C5 (amended): for `ProjectsService.updateProject`, when the update
succeeds and returns a row, that row is exactly the prior row with
precisely the payload-present fields replaced by the supplied values —
including explicitly supplied empty strings and empty arrays, stored exactly
as given — with every omitted column retaining its prior value and
`updated_at` refreshed; rows with other ids are untouched.  For
`ClientsService.updateClient` the same holds except that a present `address`
is first re-serialized with `JSON.stringify`, so the value reaching the
column is the JSON-encoded text of the supplied value. -/
theorem C5_partial_update_frame (table : List ProjectRow) (pid : String)
    (u : UpdateProjectData) (now : Nat) (newTable : List ProjectRow) (r' r : ProjectRow)
    (hup : updateProject table pid u now = Except.ok (newTable, some r'))
    (hfind : table.find? (fun row => row.id == pid) = some r) :
    r' = { r with
      title := u.title.getD r.title
      description := u.description.getD r.description
      client_id := (match u.clientId with | none => r.client_id | some v => some v)
      client_name := u.clientName.getD r.client_name
      organization := u.organization.getD r.organization
      address := u.address.getD r.address
      budget := u.budget.getD r.budget
      currency := u.currency.getD r.currency
      status := u.status.getD r.status
      priority := u.priority.getD r.priority
      progress := u.progress.getD r.progress
      start_date := u.startDate.getD r.start_date
      due_date := u.dueDate.getD r.due_date
      tags := u.tags.getD r.tags
      assigned_to := u.assignedTo.getD r.assigned_to
      notes := u.notes.getD r.notes
      contacts := u.contacts.getD r.contacts
      updated_at := now } ∧
    (∀ q ∈ table, q.id ≠ pid → q ∈ newTable) ∧
    (∀ a : String, (buildClientUpdateMap { address := some a }).address =
      some (Json.str (jsonStringify (Json.str a)))) := by
  unfold updateProject at hup
  by_cases hpe : projectMapIsEmpty (buildProjectUpdateMap u)
  · rw [if_pos hpe] at hup
    exact Except.noConfusion hup
  · rw [if_neg hpe] at hup
    unfold updateProjectRows at hup
    rw [hfind] at hup
    injection hup with hup
    have htab := congrArg Prod.fst hup
    have hrow := congrArg Prod.snd hup
    simp only at htab hrow
    injection hrow with hrow
    refine ⟨hrow ▸ rfl, ?_, fun a => rfl⟩
    intro q hq hqe
    rw [← htab]
    simp only [List.mem_map]
    refine ⟨q, hq, ?_⟩
    rw [if_neg (by simpa using hqe)]

/-- C5 (witness): updating a project with an explicit empty description
and an explicit empty tags array stores exactly those empty values and
refreshes `updated_at`, leaving every other column unchanged. -/
theorem C5_partial_update_frame_witness :
    applyProjectUpdateMap demoProjectRow
        (buildProjectUpdateMap { description := some "", tags := some [] }) 7 =
      { demoProjectRow with description := "", tags := [], updated_at := 7 } :=
  (C5_partial_update_frame [demoProjectRow] "p1"
    { description := some "", tags := some [] } 7
    (updateProjectRows [demoProjectRow] "p1"
      (buildProjectUpdateMap { description := some "", tags := some [] }) 7).1
    (applyProjectUpdateMap demoProjectRow
      (buildProjectUpdateMap { description := some "", tags := some [] }) 7)
    demoProjectRow rfl rfl).1

/-- C1 (counterexample): `TasksService.createTask` passes
`JSON.stringify(taskData.subtasks)` — a pre-serialized string — to the insert
helper, so creating a task with `subtasks = ["a"]` stores the string artifact
`"[\"a\"]"` in the subtasks column, not a value deep-equal to the array
written. -/
theorem C1_counterexample_subtasks_double_encoded :
    ((createTask [] subtaskTaskData "u" "t1" 3).1.head?.map
      (fun r => r.subtasks)) =
      some (Json.str (jsonStringify (Json.arr [Json.str "a"]))) ∧
    jsonStringify (Json.arr [Json.str "a"]) = "[\"a\"]" ∧
    Json.str (jsonStringify (Json.arr [Json.str "a"])) ≠ Json.arr [Json.str "a"] := by
  refine ⟨rfl, by decide, ?_⟩
  intro h
  exact Json.noConfusion h

/-- C1 (amended): for projects, the caller passes the native arrays for
every JSON-bearing field (`tags`, `assigned_to`, `contacts`) and a created
project read back through `getProjectById` yields values deep-equal to those
written; task `tags` round-trip likewise; but task `subtasks` (and client
`address`) are pre-serialized by the caller with `JSON.stringify`, so the
stored value is a JSON-text string, not the structure that was written. -/
theorem C1_json_roundtrip :
    (∀ (table : List ProjectRow) (d : CreateProjectData) (cb gid : String) (now : Nat)
        (t' : List ProjectRow) (r : ProjectRow),
      createProject table d cb gid now = Except.ok (t', r) →
      (∀ q ∈ table, q.id ≠ gid) →
      getProjectById t' gid = some r ∧ r.tags = d.tags.getD [] ∧
        r.assigned_to = d.assignedTo.getD [] ∧ r.contacts = d.contacts.getD []) ∧
    (∀ (tb : List TaskRow) (td : CreateTaskData) (cb gid : String) (now : Nat)
        (t2 : List TaskRow) (r2 : TaskRow),
      createTask tb td cb gid now = (t2, Except.ok r2) →
      r2.tags = td.tags.getD [] ∧
        (∀ (x : Json) (xs : List Json), td.subtasks = some (x :: xs) →
          r2.subtasks = Json.str (jsonStringify (Json.arr (x :: xs))))) ∧
    (∀ (tb : List ClientRow) (cd : CreateClientData) (cb gid : String) (now : Nat)
        (t3 : List ClientRow) (r3 : ClientRow),
      createClient tb cd cb gid now = (t3, Except.ok r3) →
      r3.tags = cd.tags.getD [] ∧ ∃ s : String, r3.address = Json.str s) := by
  refine ⟨?_, ?_, ?_⟩
  · intro table d cb gid now t' r hok hfresh
    unfold createProject at hok
    split_ifs at hok
    all_goals cases hok
    refine ⟨?_, rfl, rfl, rfl⟩
    unfold getProjectById
    have hnil : (table.filter (fun q =>
        q.id == gid && q.is_active)) = [] := by
      refine List.filter_eq_nil_iff.mpr ?_
      intro q hq hpred
      simp only [Bool.and_eq_true, beq_iff_eq] at hpred
      exact hfresh q hq hpred.1
    rw [List.filter_append, hnil]
    simp [insertProjectRow]
  · intro tb td cb gid now t2 r2 hok
    unfold createTask runInsertTask at hok
    split_ifs at hok
    all_goals cases hok
    constructor
    · show (buildCreateTaskData td cb).tags.getD [] = td.tags.getD []
      unfold buildCreateTaskData
      cases htags : td.tags with
      | none => rfl
      | some l => cases l <;> rfl
    · intro x xs hsub
      show (buildCreateTaskData td cb).subtasks.getD (Json.arr []) = _
      unfold buildCreateTaskData
      rw [hsub]
      rfl
  · intro tb cd cb gid now t3 r3 hok
    unfold createClient runInsertClient at hok
    split_ifs at hok
    all_goals cases hok
    exact ⟨rfl, jsonStringify (Json.obj
      [("street", Json.str (jsOrStr cd.address "")),
       ("city", Json.str (jsOrStr cd.city "")),
       ("state", Json.str (jsOrStr cd.state "")),
       ("zipCode", Json.str (jsOrStr cd.zipCode "")),
       ("country", Json.str (jsOrStr cd.country "BR"))]), rfl⟩

/-- C1 (witness): a project created with `tags = ["a","b"]` reads back
through `getProjectById` deep-equal, with the array intact. -/
theorem C1_json_roundtrip_witness :
    getProjectById
        [insertProjectRow (buildCreateProjectData taggedProjectData "u") "p9" 4] "p9" =
      some (insertProjectRow (buildCreateProjectData taggedProjectData "u") "p9" 4) ∧
    (insertProjectRow (buildCreateProjectData taggedProjectData "u") "p9" 4).tags =
      ["a", "b"] :=
  ⟨(C1_json_roundtrip.1 [] taggedProjectData "u" "p9" 4 _ _ rfl (by simp)).1,
   (C1_json_roundtrip.1 [] taggedProjectData "u" "p9" 4 _ _ rfl (by simp)).2.1⟩

/-- C3 (counterexample): the clients DDL has no CHECK constraint on
`status` and `createClient` performs no enum validation, so a create with the
unrecognized status token `bogus` succeeds: a row is created and the invalid
token reaches storage verbatim. -/
theorem C3_counterexample_invalid_status_stored :
    ((createClient [] bogusClientData "u1" "c1" 5).1.map (fun r => r.status)) =
      ["bogus"] ∧
    (createClient [] bogusClientData "u1" "c1" 5).1.length = 1 ∧
    clientStatusTokens.contains "bogus" = false :=
  ⟨rfl, rfl, by decide⟩

/-- C3 (amended): no service-level enum validation exists; rejection of
invalid status/priority tokens happens only where the DDL declares CHECK
constraints.  For tasks, a create or update carrying a status token outside
the recognized set fails at the constraint and leaves the table unchanged
(no row created or changed); for clients, whose DDL has no CHECK on status,
any status token is stored verbatim (see the counterexample).  For valid
tokens no transition graph is enforced: an update sets any target status
whatever the prior status. -/
theorem C3_enum_validation :
    (∀ (tb : List TaskRow) (d : CreateTaskData) (cb gid : String) (now : Nat),
      d.title ≠ "" → d.assignedTo ≠ "" →
      taskStatusTokens.contains (jsOrStr d.status "not_started") = false →
      createTask tb d cb gid now = (tb, Except.error "check constraint violation")) ∧
    (∀ (tb : List TaskRow) (tid : String) (u : UpdateTaskData) (now : Nat) (s : String)
        (r : TaskRow),
      u.status = some s → taskStatusTokens.contains s = false →
      r ∈ tb → r.id = tid →
      updateTask tb tid u now = (tb, Except.error "check constraint violation")) ∧
    (∀ (tb : List ClientRow) (d : CreateClientData) (cb gid : String) (now : Nat),
      (jsOrStr d.currency "BRL").length ≤ 3 →
      createClient tb d cb gid now =
        (tb ++ [clientRowFromMap (buildCreateClientData d cb) gid now],
         Except.ok (clientRowFromMap (buildCreateClientData d cb) gid now)) ∧
      (clientRowFromMap (buildCreateClientData d cb) gid now).status =
        jsOrStr d.status "active") ∧
    (∀ (r : ProjectRow) (t : String) (now : Nat),
      (applyProjectUpdateMap r (buildProjectUpdateMap { status := some t }) now).status =
        t) := by
  refine ⟨?_, ?_, ?_, fun r t now => rfl⟩
  · intro tb d cb gid now h1 h2 hstat
    have hc : taskRowChecks (taskRowFromMap (buildCreateTaskData d cb) gid now) = false := by
      have hst : (taskRowFromMap (buildCreateTaskData d cb) gid now).status =
          jsOrStr d.status "not_started" := rfl
      unfold taskRowChecks
      rw [hst, hstat]
      simp
    unfold createTask runInsertTask
    rw [if_neg h1, if_neg h2, if_neg (by simp [hc])]
  · intro tb tid u now s r hstat hbad hmem hid
    have hne : taskMapIsEmpty (buildTaskUpdateMap u) = false := by
      unfold taskMapIsEmpty buildTaskUpdateMap
      simp [hstat]
    unfold updateTask
    rw [if_neg (by simp [hne])]
    unfold runUpdateTask
    rw [if_neg ?hall]
    case hall =>
      intro hall
      rw [List.all_eq_true] at hall
      have hin : applyTaskUpdateMap r (buildTaskUpdateMap u) now ∈
          tb.map (fun q => if q.id == tid then applyTaskUpdateMap q (buildTaskUpdateMap u) now
            else q) := by
        simp only [List.mem_map]
        exact ⟨r, hmem, by rw [if_pos (by simp [hid])]⟩
      have := hall _ hin
      have hstx : (applyTaskUpdateMap r (buildTaskUpdateMap u) now).status = s := by
        show (buildTaskUpdateMap u).status.getD r.status = s
        show u.status.getD r.status = s
        rw [hstat]
        rfl
      have hchk : taskRowChecks (applyTaskUpdateMap r (buildTaskUpdateMap u) now) = false := by
        unfold taskRowChecks
        rw [hstx, hbad]
        simp
      have hidx : (applyTaskUpdateMap r (buildTaskUpdateMap u) now).id == tid := by
        show r.id == tid
        simp [hid]
      rw [Bool.or_eq_true, hchk, hidx] at this
      simp at this
  · intro tb d cb gid now hcur
    have hc : clientRowChecks (clientRowFromMap (buildCreateClientData d cb) gid now) =
        true := by
      unfold clientRowChecks
      show decide ((jsOrStr d.currency "BRL").length ≤ 3) = true
      exact decide_eq_true hcur
    unfold createClient runInsertClient
    rw [if_pos hc]
    exact ⟨rfl, rfl⟩

/-- C3 (witness). -/
theorem C3_enum_validation_witness :
    createTask [] invalidStatusTaskData "u" "t1" 3 =
      ([], Except.error "check constraint violation") ∧
    (applyProjectUpdateMap demoProjectRow
        (buildProjectUpdateMap { status := some "won" }) 7).status = "won" ∧
    createClient [] bogusClientData "u1" "c1" 5 =
      ([clientRowFromMap (buildCreateClientData bogusClientData "u1") "c1" 5],
       Except.ok (clientRowFromMap (buildCreateClientData bogusClientData "u1") "c1" 5)) :=
  ⟨C3_enum_validation.1 [] invalidStatusTaskData "u" "t1" 3 (by decide) (by decide)
      (by decide),
   C3_enum_validation.2.2.2 demoProjectRow "won" 7,
   (C3_enum_validation.2.2.1 [] bogusClientData "u1" "c1" 5 (by decide)).1⟩

/-- Helper: the truthiness-guarded optional fields are present in a create
map exactly when the payload value is a non-empty string. -/
theorem jsOrNullStr_ne_none (o : Option String) :
    jsOrNullStr o ≠ none ↔ ∃ s, o = some s ∧ s ≠ "" := by
  cases o with
  | none => simp [jsOrNullStr]
  | some s => by_cases h : s = "" <;> simp [jsOrNullStr, h]

/-- Helper: a truthy string payload value is passed through unchanged. -/
theorem jsOrNullStr_of_ne (s : String) (h : s ≠ "") : jsOrNullStr (some s) = some s := by
  simp [jsOrNullStr, h]

/-- C10: at create time, optional fields with empty or falsy values are
omitted from the insert map rather than stored: `createTask` includes
description, notes, dates and the client/project references only when they
are truthy non-empty strings, includes `tags`/`subtasks` only when non-empty,
and treats `projectId = 'none'` as absent; `createClient` includes
`birth_date` only when `birthDate` is non-empty and non-whitespace.  The
update maps, by contrast, pass explicitly present values through even when
empty. -/
theorem C10_create_omits_empty_optionals (d : CreateTaskData) (cb : String)
    (cd : CreateClientData) (cb2 : String) :
    (∀ s, d.description = some s → s ≠ "" →
      (buildCreateTaskData d cb).description = some s) ∧
    (∀ s, cd.birthDate = some s → s ≠ "" → jsTrim s ≠ "" →
      (buildCreateClientData cd cb2).birth_date = some s) ∧
    ((buildCreateTaskData d cb).description ≠ none ↔
      ∃ s, d.description = some s ∧ s ≠ "") ∧
    ((buildCreateTaskData d cb).notes ≠ none ↔ ∃ s, d.notes = some s ∧ s ≠ "") ∧
    ((buildCreateTaskData d cb).start_date ≠ none ↔ ∃ s, d.startDate = some s ∧ s ≠ "") ∧
    ((buildCreateTaskData d cb).end_date ≠ none ↔ ∃ s, d.endDate = some s ∧ s ≠ "") ∧
    ((buildCreateTaskData d cb).client_id ≠ none ↔ ∃ s, d.clientId = some s ∧ s ≠ "") ∧
    ((buildCreateTaskData d cb).client_name ≠ none ↔
      ∃ s, d.clientName = some s ∧ s ≠ "") ∧
    ((buildCreateTaskData d cb).project_title ≠ none ↔
      ∃ s, d.projectTitle = some s ∧ s ≠ "") ∧
    ((buildCreateTaskData d cb).project_id ≠ none ↔
      ∃ s, d.projectId = some s ∧ s ≠ "" ∧ s ≠ "none") ∧
    ((buildCreateTaskData d cb).tags ≠ none ↔ ∃ x xs, d.tags = some (x :: xs)) ∧
    ((buildCreateTaskData d cb).subtasks ≠ none ↔ ∃ x xs, d.subtasks = some (x :: xs)) ∧
    ((buildCreateClientData cd cb2).birth_date ≠ none ↔
      ∃ s, cd.birthDate = some s ∧ s ≠ "" ∧ jsTrim s ≠ "") ∧
    (∀ u : UpdateTaskData, (buildTaskUpdateMap u).description = u.description) ∧
    (∀ u : UpdateClientData, (buildClientUpdateMap u).birth_date = u.birthDate) := by
  refine ⟨?_, ?_, ?_, ?_, ?_, ?_, ?_, ?_, ?_, ?_, ?_, ?_, ?_, fun u => rfl, fun u => rfl⟩
  · intro s hs hne
    show jsOrNullStr d.description = some s
    rw [hs]
    exact jsOrNullStr_of_ne s hne
  · intro s hs hne htrim
    show (match cd.birthDate with
      | none => none
      | some s => if s ≠ "" && jsTrim s ≠ "" then some s else none) = some s
    rw [hs]
    simp [hne, htrim]
  · exact jsOrNullStr_ne_none d.description
  · exact jsOrNullStr_ne_none d.notes
  · exact jsOrNullStr_ne_none d.startDate
  · exact jsOrNullStr_ne_none d.endDate
  · exact jsOrNullStr_ne_none d.clientId
  · exact jsOrNullStr_ne_none d.clientName
  · exact jsOrNullStr_ne_none d.projectTitle
  · show (match d.projectId with
      | none => none
      | some s => if s ≠ "" && s ≠ "none" then some s else none) ≠ none ↔ _
    cases d.projectId with
    | none => simp
    | some s =>
      by_cases h1 : s = ""
      · simp [h1]
      · by_cases h2 : s = "none" <;> simp [h1, h2]
  · show (match d.tags with
      | some (t :: ts) => some (t :: ts)
      | _ => none) ≠ none ↔ _
    cases d.tags with
    | none => simp
    | some l => cases l <;> simp
  · show (match d.subtasks with
      | some (x :: xs) => some (Json.str (jsonStringify (Json.arr (x :: xs))))
      | _ => none) ≠ none ↔ _
    cases d.subtasks with
    | none => simp
    | some l => cases l <;> simp
  · show (match cd.birthDate with
      | none => none
      | some s => if s ≠ "" && jsTrim s ≠ "" then some s else none) ≠ none ↔ _
    cases cd.birthDate with
    | none => simp
    | some s =>
      by_cases h1 : s = ""
      · simp [h1]
      · by_cases h2 : jsTrim s = "" <;> simp [h1, h2]

/-- C10 (witness). -/
theorem C10_create_omits_empty_optionals_witness :
    (buildCreateTaskData describedTaskData "u").description = some "hello" ∧
    (buildCreateClientData bornClientData "u").birth_date = some "1990-01-01" :=
  ⟨(C10_create_omits_empty_optionals describedTaskData "u" bornClientData "u").1
      "hello" rfl (by decide),
   (C10_create_omits_empty_optionals describedTaskData "u" bornClientData "u").2.1
      "1990-01-01" rfl (by decide) (by decide)⟩

end Crud
